import Mathlib

/-!
Verification of `displaymode` (a macOS display-resolution CLI, `displaymode.c`)
against its natural-language specification.

Shallow embedding conventions:
* C `unsigned long` / `size_t` values are `Nat` with arithmetic reduced
  `% 2^64` where the source can wrap (`strtoul` of a negative token);
  `uint32_t` casts reduce `% 2^32`.
* C `double` refresh rates are embedded as `ℚ` (exact arithmetic standing in
  for the binary floating point of the source; all rates and tolerances in
  the claims are exactly representable decimals).
* The CoreGraphics OS service is modelled by an explicit state: a list of
  displays, each with its ordered mode catalog and a current mode.
  `CGGetActiveDisplayList(kMaxDisplays, …)` is modelled per its documented
  behaviour: it succeeds and reports at most `kMaxDisplays` displays.
  The begin/apply/commit configuration calls are modelled by an oracle of
  three error codes (0 = success); the mode change takes effect only when
  the commit call succeeds, per the documented transaction semantics.
* Side effects (handle acquire/release, stderr messages, configuration
  calls) are recorded as an ordered trace of events.
-/

/-- Width, height, refresh rate and desktop-usability of one display mode
(the fields of a `CGDisplayModeRef` that `displaymode.c` reads; `CFEqual`
on mode references is embedded as equality of these fields). -/
structure DisplayMode where
  width : Nat
  height : Nat
  refresh_rate : ℚ
  usable_for_desktop : Bool
  deriving DecidableEq, Repr

/-- One active display as the OS reports it: its ordered supported-mode
catalog (`CGDisplayCopyAllDisplayModes`) and its current mode
(`CGDisplayCopyDisplayMode`). -/
structure DisplayState where
  modes : List DisplayMode
  current : DisplayMode
  deriving DecidableEq, Repr

/-- The OS display service state: the ordered list of active displays
(index 0 is the main display). -/
structure OS where
  displays : List DisplayState
  deriving DecidableEq, Repr

/-- Outcomes the OS will give to the three configuration calls
(`CGBeginDisplayConfiguration`, `CGConfigureDisplayWithDisplayMode`,
`CGCompleteDisplayConfiguration`); 0 is success. -/
structure ConfigOS where
  beginErr : Int
  applyErr : Int
  commitErr : Int
  deriving DecidableEq, Repr

/-- Observable events of one run: OS calls, handle lifecycle, and stderr
messages. -/
inductive Ev where
  | listDisplays                      -- CGGetActiveDisplayList
  | copyAllModes                      -- CGDisplayCopyAllDisplayModes (acquires the array)
  | releaseArray                      -- CFRelease(modes)
  | retainMatched                     -- CGDisplayModeRetain of the matched mode
  | releaseMatched                    -- CGDisplayModeRelease of the matched mode
  | copyCurrent                       -- CGDisplayCopyDisplayMode (acquires a mode ref)
  | releaseCurrent                    -- CGDisplayModeRelease of that ref
  | beginConfig                       -- CGBeginDisplayConfiguration call
  | applyConfig                       -- CGConfigureDisplayWithDisplayMode call
  | commitConfig                      -- CGCompleteDisplayConfiguration call
  | committed                         -- the commit call returned success
  | msgRange (idx bound : Nat)        -- "Display %u not supported; display must be < %u"
  | msgNoMatch (w h : Nat)            -- "Could not find a mode for resolution ..."
  | msgCGError (code : Int)           -- "... CGError: %d"
  | msgInvalidMode                    -- "Invalid mode"
  deriving DecidableEq, Repr

/-- `enum Option` of the source (named `CmdOption` here because `Option` is
taken by the prelude). -/
inductive CmdOption where
  | missing          -- kOptionMissing = 0
  | invalid          -- kOptionInvalid = 1
  | invalidMode      -- kOptionInvalidMode = 2
  | supportedModes   -- kOptionSupportedModes = 'd'
  | help             -- kOptionHelp = 'h'
  | configureMode    -- kOptionConfigureMode = 't'
  | version          -- kOptionVersion = 'v'
  deriving DecidableEq, Repr

/-- `struct ParsedArgs` of the source. -/
structure ParsedArgs where
  option : CmdOption
  literal_option : String
  width : Nat           -- unsigned long
  height : Nat          -- unsigned long
  refresh_rate : ℚ      -- double; 0.0 for any
  display_index : Nat   -- uint32_t
  deriving DecidableEq, Repr

/-- `kMaxDisplays` of the source. -/
def kMaxDisplays : Nat := 32

/-- `kCGErrorRangeCheck` (CoreGraphics error code). -/
def kCGErrorRangeCheck : Int := 1007

/-- `ULONG_MAX` for 64-bit `unsigned long`. -/
def ULONG_MAX : Nat := 2 ^ 64 - 1

/-- `kRefreshTolerance` of `MatchesRefreshRate` (0.005). -/
def kRefreshTolerance : ℚ := 5 / 1000

/-- `MatchesRefreshRate`: non-zero iff `actual` is acceptable for
`specified` (`specified == 0.0 || fabs(specified - actual) < 0.005`). -/
def MatchesRefreshRate (specified actual : ℚ) : Bool :=
  decide (specified = 0) || decide (|specified - actual| < kRefreshTolerance)

/-- Accumulates a base-10 digit run: returns the value read so far and the
number of digit characters consumed. -/
def parseDigitsAux (acc consumed : Nat) : List Char → Nat × Nat
  | [] => (acc, consumed)
  | c :: cs =>
    if c.isDigit then parseDigitsAux (10 * acc + (c.toNat - 48)) (consumed + 1) cs
    else (acc, consumed)

/-- `strtoul(s, NULL, 10)` of the platform libc the program links (Apple's
FreeBSD-derived libc): skips whitespace, reads an optional sign and a
digit run.  Returns the converted value and whether `errno` was set.
When no conversion could be performed it returns 0 and sets
`errno = EINVAL` (documented FreeBSD/macOS behaviour, unlike glibc); a
minus sign negates the converted value in the unsigned type (wrapping
`% 2^64`, no `errno`); a magnitude above `ULONG_MAX` yields `ULONG_MAX`
with `ERANGE`. -/
def strtoul10 (s : String) : Nat × Bool :=
  let cs := s.toList.dropWhile (fun c => c.isWhitespace)
  let signAndRest : Bool × List Char :=
    match cs with
    | '-' :: rest => (true, rest)
    | '+' :: rest => (false, rest)
    | _ => (false, cs)
  let (v, n) := parseDigitsAux 0 0 signAndRest.2
  if n = 0 then (0, true)
  else if ULONG_MAX < v then (ULONG_MAX, true)
  else if signAndRest.1 then ((2 ^ 64 - v % 2 ^ 64) % 2 ^ 64, false)
  else (v, false)

/-- `strtod(s, &end)` restricted to the plain decimal forms the tool's
refresh-rate argument uses (optional sign, digits, optional point and
digits; exponent/hex/inf forms are not modelled).  Returns the value and
whether any conversion was performed (`end != s`). -/
def strtod10 (s : String) : ℚ × Bool :=
  let cs := s.toList.dropWhile (fun c => c.isWhitespace)
  let signAndRest : Bool × List Char :=
    match cs with
    | '-' :: rest => (true, rest)
    | '+' :: rest => (false, rest)
    | _ => (false, cs)
  let (ip, n1) := parseDigitsAux 0 0 signAndRest.2
  let afterInt := signAndRest.2.drop n1
  let fracPart : Nat × Nat :=
    match afterInt with
    | '.' :: cs2 => parseDigitsAux 0 0 cs2
    | _ => (0, 0)
  if n1 = 0 ∧ fracPart.2 = 0 then (0, false)
  else
    let mag : ℚ := (ip : ℚ) + (fracPart.1 : ℚ) / (10 : ℚ) ^ fracPart.2
    (if signAndRest.1 then -mag else mag, true)

/-- `ParseMode`: parses the `width height [@refresh] [display]` tokens of
the `t` subcommand (argv indices 2, 3, 4…).  A straight-line rendering of
the source: each `parsed_args->option = kOptionInvalidMode` assignment
becomes a functional update. -/
def ParseMode (argv : List String) (pa0 : ParsedArgs) : ParsedArgs :=
  -- if (argc <= kArgvHeightIndex)
  if argv.length ≤ 3 then { pa0 with option := CmdOption.invalidMode }
  else
    let (width, werr) := strtoul10 (argv.getD 2 "")
    let pa1 := if werr then { pa0 with option := CmdOption.invalidMode } else pa0
    let (height, herr) := strtoul10 (argv.getD 3 "")
    let pa2 := if herr then { pa1 with option := CmdOption.invalidMode } else pa1
    -- if (refresh_index < argc && argv[4][0] == '@')   ('\0' when the token is empty)
    let hasAt : Bool :=
      decide (4 < argv.length) &&
        decide ((argv.getD 4 "").toList.getD 0 (Char.ofNat 0) = '@')
    let display_index := if hasAt then 5 else 4
    let pa3 :=
      if hasAt then
        -- const char *s = argv[refresh_index] + 1
        let s := String.mk ((argv.getD 4 "").toList.drop 1)
        let (v, conv) := strtod10 s
        let pa := { pa2 with refresh_rate := v }
        if conv = false then { pa with option := CmdOption.invalidMode } else pa
      else pa2
    let pa4 :=
      if display_index < argv.length then
        let (dv, derr) := strtoul10 (argv.getD display_index "")
        let pa := { pa3 with display_index := dv % 2 ^ 32 }
        if derr then { pa with option := CmdOption.invalidMode } else pa
      else pa3
    if 0 < width ∧ 0 < height then { pa4 with width := width, height := height }
    else { pa4 with option := CmdOption.invalidMode }

/-- The `switch (option)` of `ParseArgs`: single letters d/h/t/v select an
option; anything else leaves `kOptionMissing`. -/
def charToOption (c : Char) : CmdOption :=
  if c = 'd' then CmdOption.supportedModes
  else if c = 'h' then CmdOption.help
  else if c = 't' then CmdOption.configureMode
  else if c = 'v' then CmdOption.version
  else CmdOption.missing

/-- `ParseArgs`: parses the command line (`argv` includes the program name
at index 0). -/
def ParseArgs (argv : List String) : ParsedArgs :=
  let pa0 : ParsedArgs := ⟨CmdOption.missing, "", 0, 0, 0, 0⟩
  if argv.length ≤ 1 then pa0
  else if (argv.getD 1 "").length ≠ 1 then pa0
  else
    let lit := argv.getD 1 ""
    let c := lit.toList.getD 0 ' '
    let pa1 := { pa0 with literal_option := lit, option := charToOption c }
    if c = 't' then ParseMode argv pa1 else pa1

/-- `PrintMode`: formats one mode as `%zu x %zu @%.1fHz%s` with ` !` for
modes not usable for the desktop.  `%.1f` is embedded by rounding the
exact rational to tenths. -/
def formatRate1 (q : ℚ) : String :=
  let t : Int := round (q * 10)
  let sign := if t < 0 then "-" else ""
  let n := t.natAbs
  sign ++ toString (n / 10) ++ "." ++ toString (n % 10)

/-- `PrintMode` of the source (returns the printed text, without the
current-mode marker, which `PrintModes` appends). -/
def PrintMode (mode : DisplayMode) : String :=
  toString mode.width ++ " x " ++ toString mode.height ++ " @" ++
    formatRate1 mode.refresh_rate ++ "Hz" ++
    (if mode.usable_for_desktop then "" else " !")

/-- The scan of `PrintModes`: each enumerated mode paired with whether its
line gets the ` *` marker (`CFEqual(mode, current_mode)`); if no entry
compared equal (`!has_current`), the current mode is appended as an extra
marked entry. -/
def PrintModesMarked (current : DisplayMode) (modes : List DisplayMode) :
    List (DisplayMode × Bool) :=
  let marked := modes.map (fun m => (m, decide (m = current)))
  if modes.any (fun m => decide (m = current)) then marked
  else marked ++ [(current, true)]

/-- `PrintModes`: the lines printed for one display (each entry's
`PrintMode` text, plus ` *` on marked entries). -/
def PrintModes (current : DisplayMode) (modes : List DisplayMode) : List String :=
  (PrintModesMarked current modes).map
    (fun p => PrintMode p.1 ++ (if p.2 then " *" else ""))

/-- The header line `printf("%sDisplay %u%s:\n", …)` prints for display
`i` (the leading blank line for `i ≠ 0` is modelled as a separate line by
`PrintModesForAllDisplays`). -/
def DisplayHeader (i : Nat) : String :=
  "Display " ++ toString i ++ (if i = 0 then " (MAIN)" else "") ++ ":"

/-- `PrintModesForAllDisplays`: exit code and printed lines.  The active
display list is capped at `kMaxDisplays`; the list call is modelled as
succeeding. -/
def PrintModesForAllDisplays (os : OS) : Int × List String :=
  let displays := os.displays.take kMaxDisplays
  (0, displays.enum.flatMap (fun p =>
    (if p.1 = 0 then [] else [""]) ++ [DisplayHeader p.1] ++
      PrintModes p.2.current p.2.modes))

/-- `GetDisplayID`: resolves a zero-based display index against the live
active-display list (capped at `kMaxDisplays`); out-of-range indices fail
with `kCGErrorRangeCheck`. -/
def GetDisplayID (display_index : Nat) (os : OS) : Except Int DisplayState :=
  let displays := os.displays.take kMaxDisplays
  if h : display_index < displays.length then
    Except.ok (displays.get ⟨display_index, h⟩)
  else Except.error kCGErrorRangeCheck

/-- The loop condition of `GetModeMatching`: width and height equal the
request's and the refresh rate satisfies `MatchesRefreshRate`. -/
def matchesRequest (pa : ParsedArgs) (m : DisplayMode) : Bool :=
  decide (m.width = pa.width) && decide (m.height = pa.height) &&
    MatchesRefreshRate pa.refresh_rate m.refresh_rate

/-- The loop of `GetModeMatching`: the first mode of the catalog satisfying
`matchesRequest`; `none` when the scan finds nothing. -/
def GetModeMatching (pa : ParsedArgs) : List DisplayMode → Option DisplayMode
  | [] => none
  | m :: ms => if matchesRequest pa m then some m else GetModeMatching pa ms

/-- Updates the current mode of display `i` (the effect of a committed
configuration). -/
def setCurrent (os : OS) (i : Nat) (mode : DisplayMode) : OS :=
  ⟨os.displays.mapIdx (fun j d => if j = i then { d with current := mode } else d)⟩

/-- `ConfigureMode`: exit code, event trace, and resulting OS state.
Mirrors the source: resolve the display, scan for a matching mode
(acquiring and releasing the mode array, retaining a match), copy and
release the original mode, then begin/apply/commit; each configuration
failure returns immediately with the CGError.  The matched mode is
released only on the full-success path, as in the source. -/
def ConfigureMode (pa : ParsedArgs) (os : OS) (cos : ConfigOS) :
    Int × List Ev × OS :=
  match GetDisplayID pa.display_index os with
  | Except.error e =>
    (e, [Ev.listDisplays,
         Ev.msgRange pa.display_index (os.displays.take kMaxDisplays).length], os)
  | Except.ok d =>
    match GetModeMatching pa d.modes with
    | none =>
      (-1, [Ev.listDisplays, Ev.copyAllModes, Ev.releaseArray,
            Ev.msgNoMatch pa.width pa.height], os)
    | some mode =>
      let ev0 := [Ev.listDisplays, Ev.copyAllModes, Ev.retainMatched,
                  Ev.releaseArray, Ev.copyCurrent, Ev.releaseCurrent]
      if cos.beginErr ≠ 0 then
        (cos.beginErr, ev0 ++ [Ev.beginConfig, Ev.msgCGError cos.beginErr], os)
      else if cos.applyErr ≠ 0 then
        (cos.applyErr,
         ev0 ++ [Ev.beginConfig, Ev.applyConfig, Ev.msgCGError cos.applyErr], os)
      else if cos.commitErr ≠ 0 then
        (cos.commitErr,
         ev0 ++ [Ev.beginConfig, Ev.applyConfig, Ev.commitConfig,
                 Ev.msgCGError cos.commitErr], os)
      else
        (0, ev0 ++ [Ev.beginConfig, Ev.applyConfig, Ev.commitConfig,
                    Ev.committed, Ev.releaseMatched],
         setCurrent os pa.display_index mode)

/-- `main`: dispatches on the parsed option; exit code, event trace and
resulting OS state.  The `d` branch's per-display handle traffic is
summarised by the list call event (it performs no mutation). -/
def mainRun (argv : List String) (os : OS) (cos : ConfigOS) :
    Int × List Ev × OS :=
  let pa := ParseArgs argv
  match pa.option with
  | CmdOption.missing => (1, [], os)
  | CmdOption.invalid => (1, [], os)
  | CmdOption.invalidMode => (1, [Ev.msgInvalidMode], os)
  | CmdOption.configureMode => ConfigureMode pa os cos
  | CmdOption.help => (0, [], os)
  | CmdOption.supportedModes => ((PrintModesForAllDisplays os).1, [Ev.listDisplays], os)
  | CmdOption.version => (0, [], os)

/-- The spec's matcher (§4.2), stated from its words: width and height
equal the target's exactly, and the refresh rate satisfies the constraint
(any rate when no constraint was given, within 0.005 Hz otherwise). -/
def MatchSpec (pa : ParsedArgs) (m : DisplayMode) : Prop :=
  m.width = pa.width ∧ m.height = pa.height ∧
    (pa.refresh_rate = 0 ∨ |pa.refresh_rate - m.refresh_rate| < 5 / 1000)

instance (pa : ParsedArgs) (m : DisplayMode) : Decidable (MatchSpec pa m) := by
  unfold MatchSpec; infer_instance

/-! ## Helper lemmas -/

theorem matchesRequest_iff (pa : ParsedArgs) (m : DisplayMode) :
    matchesRequest pa m = true ↔ MatchSpec pa m := by
  simp [matchesRequest, MatchesRefreshRate, MatchSpec, kRefreshTolerance]
  tauto

theorem GetModeMatching_none_iff (pa : ParsedArgs) (modes : List DisplayMode) :
    GetModeMatching pa modes = none ↔ ∀ m ∈ modes, ¬ MatchSpec pa m := by
  induction modes with
  | nil => simp [GetModeMatching]
  | cons a ms ih =>
    by_cases ha : matchesRequest pa a = true
    · simp [GetModeMatching, ha, (matchesRequest_iff pa a).1 ha]
    · have ha' : ¬ MatchSpec pa a := fun hs => ha ((matchesRequest_iff pa a).2 hs)
      simp [GetModeMatching, Bool.eq_false_iff.2 ha, ih, ha']

theorem GetModeMatching_some_spec (pa : ParsedArgs) (modes : List DisplayMode)
    (m : DisplayMode) (h : GetModeMatching pa modes = some m) :
    MatchSpec pa m ∧ ∃ i : Nat, ∃ hi : i < modes.length,
      modes.get ⟨i, hi⟩ = m ∧ ∀ m' ∈ modes.take i, ¬ MatchSpec pa m' := by
  induction modes with
  | nil => simp [GetModeMatching] at h
  | cons a ms ih =>
    rw [GetModeMatching] at h
    by_cases ha : matchesRequest pa a = true
    · rw [if_pos ha] at h
      obtain rfl : a = m := Option.some.inj h
      exact ⟨(matchesRequest_iff pa a).1 ha, 0, by simp, rfl, by simp⟩
    · rw [if_neg (fun hc => ha hc)] at h
      obtain ⟨hm, i, hi, hget, hpre⟩ := ih h
      have ha' : ¬ MatchSpec pa a := fun hs => ha ((matchesRequest_iff pa a).2 hs)
      refine ⟨hm, i + 1, by simpa using Nat.succ_lt_succ hi, hget, ?_⟩
      intro m' hm'
      rw [List.take_succ_cons, List.mem_cons] at hm'
      rcases hm' with rfl | hm'
      · exact ha'
      · exact hpre m' hm'

/-! ## Claim theorems -/

/-- C1: the mode selector returns the first mode in catalog order whose
width and height equal the target's exactly and whose refresh rate
satisfies the constraint (any rate if no constraint was given), and
returns no mode when no entry matches — it never substitutes a closest
mode. -/
theorem GetModeMatching_first_exact_match (pa : ParsedArgs) (modes : List DisplayMode) :
    (GetModeMatching pa modes = none ↔ ∀ m ∈ modes, ¬ MatchSpec pa m) ∧
    ∀ m : DisplayMode, GetModeMatching pa modes = some m →
      MatchSpec pa m ∧ ∃ i : Nat, ∃ hi : i < modes.length,
        modes.get ⟨i, hi⟩ = m ∧ ∀ m' ∈ modes.take i, ¬ MatchSpec pa m' :=
  ⟨GetModeMatching_none_iff pa modes,
   fun m h => GetModeMatching_some_spec pa modes m h⟩

theorem GetModeMatching_first_exact_match_witness :
    MatchSpec ⟨CmdOption.configureMode, "t", 1280, 800, 0, 0⟩ ⟨1280, 800, 60, true⟩ ∧
    GetModeMatching ⟨CmdOption.configureMode, "t", 1280, 800, 0, 0⟩
      [⟨2560, 1600, 60, true⟩, ⟨1280, 800, 60, true⟩] = some ⟨1280, 800, 60, true⟩ :=
  ⟨((GetModeMatching_first_exact_match ⟨CmdOption.configureMode, "t", 1280, 800, 0, 0⟩
      [⟨2560, 1600, 60, true⟩, ⟨1280, 800, 60, true⟩]).2
        ⟨1280, 800, 60, true⟩ (by decide)).1, by decide⟩

/-- C5: refresh-rate matching is reflexive under tolerance: a constraint
equal to the catalog rate `r`, or any value strictly within 0.005 Hz of
`r`, matches; a constraint of `r + 1.0` does not (catalog rates are
non-negative). -/
theorem MatchesRefreshRate_reflexive_tolerance (s r : ℚ) (hr : 0 ≤ r) :
    MatchesRefreshRate r r = true ∧
    (|s - r| < 5 / 1000 → MatchesRefreshRate s r = true) ∧
    MatchesRefreshRate (r + 1) r = false := by
  refine ⟨?_, ?_, ?_⟩
  · simp [MatchesRefreshRate, kRefreshTolerance]
  · intro h
    simp [MatchesRefreshRate, kRefreshTolerance, h]
  · simp [MatchesRefreshRate, kRefreshTolerance]
    constructor
    · intro h; nlinarith
    · norm_num

theorem MatchesRefreshRate_reflexive_tolerance_witness :
    MatchesRefreshRate 60 60 = true ∧
    MatchesRefreshRate (15001 / 250) 60 = true ∧
    MatchesRefreshRate (60 + 1) 60 = false := by
  have h := MatchesRefreshRate_reflexive_tolerance (15001 / 250) 60 (by norm_num)
  refine ⟨h.1, h.2.1 ?_, h.2.2⟩
  rw [show (15001 : ℚ) / 250 - 60 = 1 / 250 by norm_num]
  rw [abs_of_pos (by norm_num)]
  norm_num

/-- C2 counterexample: when the enumerated sequence contains two entries
equal to the current mode, the scan does not stop marking after the first
— both lines carry the current-mode marker, so the marker appears twice
in the block, not exactly once. -/
theorem PrintModes_marker_twice_counterexample :
    ((PrintModesMarked ⟨640, 480, 60, true⟩
        [⟨640, 480, 60, true⟩, ⟨640, 480, 60, true⟩]).countP (fun p => p.2)) = 2 ∧
    ((PrintModesMarked ⟨640, 480, 60, true⟩
        [⟨640, 480, 60, true⟩, ⟨640, 480, 60, true⟩]).getD 1
          (⟨0, 0, 0, true⟩, false)).2 = true := by
  constructor <;> decide

/-- C2 (amended): each supported mode is printed on its own line and every
entry equal to the current mode is marked (the scan does not stop after
the first match); if no entry compares equal, the current mode is
appended as an extra marked line; consequently, whenever the current mode
occurs at most once in the enumerated sequence, the marker appears
exactly once in the display's block. -/
theorem PrintModes_current_marking (current : DisplayMode) (modes : List DisplayMode)
    (hdup : modes.countP (fun m => decide (m = current)) ≤ 1) :
    (PrintModesMarked current modes).map Prod.fst
      = modes ++ (if current ∈ modes then [] else [current]) ∧
    (∀ p ∈ PrintModesMarked current modes, p.2 = true → p.1 = current) ∧
    (PrintModesMarked current modes).countP (fun p => p.2) = 1 := by
  unfold PrintModesMarked
  by_cases hany : modes.any (fun m => decide (m = current)) = true
  · have hmem : current ∈ modes := by
      rcases List.any_eq_true.1 hany with ⟨x, hx, hxe⟩
      exact (of_decide_eq_true hxe) ▸ hx
    rw [if_pos hany, if_pos hmem]
    refine ⟨by simp [Function.comp_def], ?_, ?_⟩
    · intro p hp hpt
      rcases List.mem_map.1 hp with ⟨m, _, rfl⟩
      exact of_decide_eq_true hpt
    · rw [List.countP_map]
      have h1 : 0 < modes.countP (fun m => decide (m = current)) :=
        List.countP_pos_iff.2 ⟨current, hmem, by simp⟩
      have h2 : modes.countP ((fun p : DisplayMode × Bool => p.2) ∘
          (fun m => (m, decide (m = current)))) =
          modes.countP (fun m => decide (m = current)) := by
        rfl
      omega
  · have hmem : current ∉ modes := by
      intro hc
      exact hany (List.any_eq_true.2 ⟨current, hc, by simp⟩)
    rw [if_neg hany, if_neg hmem]
    refine ⟨by simp [Function.comp_def], ?_, ?_⟩
    · intro p hp hpt
      rcases List.mem_append.1 hp with hp | hp
      · rcases List.mem_map.1 hp with ⟨m, _, rfl⟩
        exact of_decide_eq_true hpt
      · rw [List.mem_singleton.1 hp]
    · rw [List.countP_append, List.countP_map]
      have h2 : modes.countP ((fun p : DisplayMode × Bool => p.2) ∘
          (fun m => (m, decide (m = current)))) =
          modes.countP (fun m => decide (m = current)) := rfl
      have h0 : modes.countP (fun m => decide (m = current)) = 0 := by
        rw [List.countP_eq_zero]
        intro a ha
        simp only [decide_eq_true_eq]
        exact fun he => hmem (he ▸ ha)
      rw [h2, h0]
      rfl

theorem PrintModes_current_marking_witness :
    ((PrintModesMarked ⟨2560, 1600, 60, true⟩
        [⟨2560, 1600, 60, true⟩, ⟨1280, 800, 60, true⟩]).countP (fun p => p.2)) = 1 :=
  (PrintModes_current_marking ⟨2560, 1600, 60, true⟩
    [⟨2560, 1600, 60, true⟩, ⟨1280, 800, 60, true⟩] (by decide)).2.2

/-- C8 counterexample: the header printed for display 0 is
`Display 0 (MAIN):` — not the bare `Display 0:` the scenario asserts
(the index-0 header carries the main-display annotation). -/
theorem PrintModesForAllDisplays_header_counterexample :
    (PrintModesForAllDisplays ⟨[⟨[⟨2560, 1600, 60, true⟩, ⟨1280, 800, 60, true⟩,
        ⟨640, 480, 60, false⟩], ⟨2560, 1600, 60, true⟩⟩]⟩).2.getD 0 ""
      = "Display 0 (MAIN):" ∧
    ("Display 0 (MAIN):" : String) ≠ "Display 0:" := by
  constructor
  · rfl
  · decide

/-- C8 (amended): for the scenario catalog on display 0 the printed block
is exactly the header `Display 0 (MAIN):` (index 0 annotated as main)
followed by the three mode lines `2560 x 1600 @60.0Hz *`,
`1280 x 800 @60.0Hz`, `640 x 480 @60.0Hz !`, each of the form
`<w> x <h> @<rate>Hz[ *][ !]`, with exit code 0. -/
theorem PrintModesForAllDisplays_scenario :
    PrintModesForAllDisplays ⟨[⟨[⟨2560, 1600, 60, true⟩, ⟨1280, 800, 60, true⟩,
        ⟨640, 480, 60, false⟩], ⟨2560, 1600, 60, true⟩⟩]⟩ =
      (0, ["Display 0 (MAIN):", "2560 x 1600 @60.0Hz *",
           "1280 x 800 @60.0Hz", "640 x 480 @60.0Hz !"]) := by
  have h60 : formatRate1 60 = "60.0" := by
    have h : ((60 : ℚ) * 10) = ((600 : ℤ) : ℚ) := by norm_num
    unfold formatRate1
    rw [h, round_intCast]
    rfl
  have p1 : PrintMode ⟨2560, 1600, 60, true⟩ = "2560 x 1600 @60.0Hz" := by
    unfold PrintMode
    rw [show ((⟨2560, 1600, 60, true⟩ : DisplayMode).refresh_rate) = 60 from rfl, h60]
    rfl
  have p2 : PrintMode ⟨1280, 800, 60, true⟩ = "1280 x 800 @60.0Hz" := by
    unfold PrintMode
    rw [show ((⟨1280, 800, 60, true⟩ : DisplayMode).refresh_rate) = 60 from rfl, h60]
    rfl
  have p3 : PrintMode ⟨640, 480, 60, false⟩ = "640 x 480 @60.0Hz !" := by
    unfold PrintMode
    rw [show ((⟨640, 480, 60, false⟩ : DisplayMode).refresh_rate) = 60 from rfl, h60]
    rfl
  have hm : PrintModesMarked ⟨2560, 1600, 60, true⟩
      [⟨2560, 1600, 60, true⟩, ⟨1280, 800, 60, true⟩, ⟨640, 480, 60, false⟩] =
      [(⟨2560, 1600, 60, true⟩, true), (⟨1280, 800, 60, true⟩, false),
       (⟨640, 480, 60, false⟩, false)] := by decide
  have hi : PrintModes ⟨2560, 1600, 60, true⟩
      [⟨2560, 1600, 60, true⟩, ⟨1280, 800, 60, true⟩, ⟨640, 480, 60, false⟩] =
      ["2560 x 1600 @60.0Hz *", "1280 x 800 @60.0Hz", "640 x 480 @60.0Hz !"] := by
    unfold PrintModes
    rw [hm]
    simp only [List.map]
    rw [p1, p2, p3]
    rfl
  unfold PrintModesForAllDisplays
  rw [show ((⟨[⟨[⟨2560, 1600, 60, true⟩, ⟨1280, 800, 60, true⟩,
      ⟨640, 480, 60, false⟩], ⟨2560, 1600, 60, true⟩⟩]⟩ : OS).displays.take kMaxDisplays)
      = [⟨[⟨2560, 1600, 60, true⟩, ⟨1280, 800, 60, true⟩, ⟨640, 480, 60, false⟩],
         ⟨2560, 1600, 60, true⟩⟩] from rfl]
  simp only [List.enum, List.enumFrom, List.flatMap, List.map, List.flatten]
  rw [hi]
  rfl

/-- C3: once the configuration phase is reached (display resolved, mode
matched), begin/apply/commit form a single transaction: the first failing
step aborts the operation immediately with that step's OS error code
reported, later steps are not attempted, the commit never succeeds, and
the OS display state is unchanged — no partial mode change occurs. -/
theorem ConfigureMode_transaction (pa : ParsedArgs) (os : OS) (cos : ConfigOS)
    (d : DisplayState) (mode : DisplayMode)
    (hd : GetDisplayID pa.display_index os = Except.ok d)
    (hm : GetModeMatching pa d.modes = some mode) :
    (cos.beginErr ≠ 0 →
      (ConfigureMode pa os cos).1 = cos.beginErr ∧
      Ev.msgCGError cos.beginErr ∈ (ConfigureMode pa os cos).2.1 ∧
      Ev.applyConfig ∉ (ConfigureMode pa os cos).2.1 ∧
      Ev.commitConfig ∉ (ConfigureMode pa os cos).2.1) ∧
    (cos.beginErr = 0 → cos.applyErr ≠ 0 →
      (ConfigureMode pa os cos).1 = cos.applyErr ∧
      Ev.msgCGError cos.applyErr ∈ (ConfigureMode pa os cos).2.1 ∧
      Ev.commitConfig ∉ (ConfigureMode pa os cos).2.1) ∧
    (cos.beginErr = 0 → cos.applyErr = 0 → cos.commitErr ≠ 0 →
      (ConfigureMode pa os cos).1 = cos.commitErr ∧
      Ev.msgCGError cos.commitErr ∈ (ConfigureMode pa os cos).2.1) ∧
    ((cos.beginErr ≠ 0 ∨ cos.applyErr ≠ 0 ∨ cos.commitErr ≠ 0) →
      (ConfigureMode pa os cos).1 ≠ 0 ∧
      Ev.committed ∉ (ConfigureMode pa os cos).2.1 ∧
      (ConfigureMode pa os cos).2.2 = os) := by
  have hkey : ConfigureMode pa os cos =
      (if cos.beginErr ≠ 0 then
        (cos.beginErr,
         [Ev.listDisplays, Ev.copyAllModes, Ev.retainMatched, Ev.releaseArray,
          Ev.copyCurrent, Ev.releaseCurrent] ++
           [Ev.beginConfig, Ev.msgCGError cos.beginErr], os)
      else if cos.applyErr ≠ 0 then
        (cos.applyErr,
         [Ev.listDisplays, Ev.copyAllModes, Ev.retainMatched, Ev.releaseArray,
          Ev.copyCurrent, Ev.releaseCurrent] ++
           [Ev.beginConfig, Ev.applyConfig, Ev.msgCGError cos.applyErr], os)
      else if cos.commitErr ≠ 0 then
        (cos.commitErr,
         [Ev.listDisplays, Ev.copyAllModes, Ev.retainMatched, Ev.releaseArray,
          Ev.copyCurrent, Ev.releaseCurrent] ++
           [Ev.beginConfig, Ev.applyConfig, Ev.commitConfig,
            Ev.msgCGError cos.commitErr], os)
      else
        (0,
         [Ev.listDisplays, Ev.copyAllModes, Ev.retainMatched, Ev.releaseArray,
          Ev.copyCurrent, Ev.releaseCurrent] ++
           [Ev.beginConfig, Ev.applyConfig, Ev.commitConfig, Ev.committed,
            Ev.releaseMatched],
         setCurrent os pa.display_index mode)) := by
    simp only [ConfigureMode, hd, hm]
  refine ⟨?_, ?_, ?_, ?_⟩
  · intro hb
    rw [hkey, if_pos hb]
    refine ⟨rfl, by simp, by simp, by simp⟩
  · intro hb ha
    rw [hkey, if_neg (by simp [hb]), if_pos ha]
    refine ⟨rfl, by simp, by simp⟩
  · intro hb ha hc
    rw [hkey, if_neg (by simp [hb]), if_neg (by simp [ha]), if_pos hc]
    refine ⟨rfl, by simp⟩
  · intro hfail
    by_cases hb : cos.beginErr = 0
    · by_cases ha : cos.applyErr = 0
      · have hc : cos.commitErr ≠ 0 := by
          rcases hfail with h | h | h
          · exact absurd hb h
          · exact absurd ha h
          · exact h
        rw [hkey, if_neg (by simp [hb]), if_neg (by simp [ha]), if_pos hc]
        exact ⟨hc, by simp, rfl⟩
      · rw [hkey, if_neg (by simp [hb]), if_pos ha]
        exact ⟨ha, by simp, rfl⟩
    · rw [hkey, if_pos hb]
      exact ⟨hb, by simp, rfl⟩

theorem ConfigureMode_transaction_witness :
    (ConfigureMode ⟨CmdOption.configureMode, "t", 1440, 900, 0, 0⟩
        ⟨[⟨[⟨1440, 900, 60, true⟩], ⟨2560, 1600, 60, true⟩⟩]⟩ ⟨1000, 0, 0⟩).1 = 1000 ∧
    Ev.committed ∉ (ConfigureMode ⟨CmdOption.configureMode, "t", 1440, 900, 0, 0⟩
        ⟨[⟨[⟨1440, 900, 60, true⟩], ⟨2560, 1600, 60, true⟩⟩]⟩ ⟨1000, 0, 0⟩).2.1 := by
  have h := ConfigureMode_transaction ⟨CmdOption.configureMode, "t", 1440, 900, 0, 0⟩
      ⟨[⟨[⟨1440, 900, 60, true⟩], ⟨2560, 1600, 60, true⟩⟩]⟩ ⟨1000, 0, 0⟩
      ⟨[⟨1440, 900, 60, true⟩], ⟨2560, 1600, 60, true⟩⟩ ⟨1440, 900, 60, true⟩
      rfl (by decide)
  exact ⟨(h.1 (by decide)).1, (h.2.2.2 (Or.inl (by decide))).2.1⟩

/-- C6: a requested display index at or beyond the number of active
displays makes display resolution fail with the range-check error, whose
message reports the valid range; the operation performs no OS mutation. -/
theorem ConfigureMode_range_error (pa : ParsedArgs) (os : OS) (cos : ConfigOS)
    (h : os.displays.length ≤ pa.display_index) :
    GetDisplayID pa.display_index os = Except.error kCGErrorRangeCheck ∧
    ConfigureMode pa os cos =
      (kCGErrorRangeCheck,
       [Ev.listDisplays,
        Ev.msgRange pa.display_index (min kMaxDisplays os.displays.length)], os) ∧
    kCGErrorRangeCheck ≠ 0 ∧
    Ev.beginConfig ∉ (ConfigureMode pa os cos).2.1 ∧
    Ev.committed ∉ (ConfigureMode pa os cos).2.1 ∧
    (ConfigureMode pa os cos).2.2 = os := by
  have hlen : (os.displays.take kMaxDisplays).length ≤ pa.display_index := by
    rw [List.length_take]
    exact le_trans (min_le_right _ _) h
  have hg : GetDisplayID pa.display_index os = Except.error kCGErrorRangeCheck := by
    unfold GetDisplayID
    rw [dif_neg (by omega)]
  have hc : ConfigureMode pa os cos =
      (kCGErrorRangeCheck,
       [Ev.listDisplays,
        Ev.msgRange pa.display_index (min kMaxDisplays os.displays.length)], os) := by
    simp only [ConfigureMode, hg, List.length_take]
  refine ⟨hg, hc, by norm_num [kCGErrorRangeCheck], ?_, ?_, ?_⟩ <;> rw [hc] <;> simp

theorem ConfigureMode_range_error_witness :
    ConfigureMode ⟨CmdOption.configureMode, "t", 1280, 800, 0, 1⟩
        ⟨[⟨[⟨1280, 800, 60, true⟩], ⟨1280, 800, 60, true⟩⟩]⟩ ⟨0, 0, 0⟩ =
      (kCGErrorRangeCheck, [Ev.listDisplays, Ev.msgRange 1 (min kMaxDisplays 1)],
       ⟨[⟨[⟨1280, 800, 60, true⟩], ⟨1280, 800, 60, true⟩⟩]⟩) :=
  (ConfigureMode_range_error ⟨CmdOption.configureMode, "t", 1280, 800, 0, 1⟩
    ⟨[⟨[⟨1280, 800, 60, true⟩], ⟨1280, 800, 60, true⟩⟩]⟩ ⟨0, 0, 0⟩ (by decide)).2.1

/-- C7: a width/height pair absent from the target display's catalog makes
the change-mode operation fail with the no-match error (the
"could not find a mode" message and exit -1); the configuration
transaction is never begun and the OS state is unchanged. -/
theorem ConfigureMode_no_match (pa : ParsedArgs) (os : OS) (cos : ConfigOS)
    (d : DisplayState) (hd : GetDisplayID pa.display_index os = Except.ok d)
    (hnone : ∀ m ∈ d.modes, ¬(m.width = pa.width ∧ m.height = pa.height)) :
    ConfigureMode pa os cos =
      (-1, [Ev.listDisplays, Ev.copyAllModes, Ev.releaseArray,
            Ev.msgNoMatch pa.width pa.height], os) ∧
    (ConfigureMode pa os cos).1 ≠ 0 ∧
    Ev.beginConfig ∉ (ConfigureMode pa os cos).2.1 ∧
    Ev.committed ∉ (ConfigureMode pa os cos).2.1 ∧
    (ConfigureMode pa os cos).2.2 = os := by
  have hmm : GetModeMatching pa d.modes = none :=
    (GetModeMatching_none_iff pa d.modes).2
      (fun m hm hs => hnone m hm ⟨hs.1, hs.2.1⟩)
  have hc : ConfigureMode pa os cos =
      (-1, [Ev.listDisplays, Ev.copyAllModes, Ev.releaseArray,
            Ev.msgNoMatch pa.width pa.height], os) := by
    simp only [ConfigureMode, hd, hmm]
  exact ⟨hc, by rw [hc]; norm_num, by rw [hc]; simp, by rw [hc]; simp, by rw [hc]⟩

theorem ConfigureMode_no_match_witness :
    ConfigureMode ⟨CmdOption.configureMode, "t", 1920, 1080, 0, 0⟩
        ⟨[⟨[⟨2560, 1600, 60, true⟩, ⟨1280, 800, 60, true⟩, ⟨640, 480, 60, false⟩],
           ⟨2560, 1600, 60, true⟩⟩]⟩ ⟨0, 0, 0⟩ =
      (-1, [Ev.listDisplays, Ev.copyAllModes, Ev.releaseArray, Ev.msgNoMatch 1920 1080],
       ⟨[⟨[⟨2560, 1600, 60, true⟩, ⟨1280, 800, 60, true⟩, ⟨640, 480, 60, false⟩],
          ⟨2560, 1600, 60, true⟩⟩]⟩) :=
  (ConfigureMode_no_match ⟨CmdOption.configureMode, "t", 1920, 1080, 0, 0⟩
    ⟨[⟨[⟨2560, 1600, 60, true⟩, ⟨1280, 800, 60, true⟩, ⟨640, 480, 60, false⟩],
       ⟨2560, 1600, 60, true⟩⟩]⟩ ⟨0, 0, 0⟩
    ⟨[⟨2560, 1600, 60, true⟩, ⟨1280, 800, 60, true⟩, ⟨640, 480, 60, false⟩],
      ⟨2560, 1600, 60, true⟩⟩ rfl (by decide)).1

/-- C9 (code bug): when `CGBeginDisplayConfiguration` fails after a mode
was matched and retained, `ConfigureMode` returns without releasing the
matched mode — the trace holds one retain and zero releases of that
handle, contradicting release-exactly-once on every exit path. -/
theorem ConfigureMode_leak_on_begin_failure :
    ((ConfigureMode ⟨CmdOption.configureMode, "t", 1440, 900, 0, 0⟩
        ⟨[⟨[⟨1440, 900, 60, true⟩], ⟨2560, 1600, 60, true⟩⟩]⟩
        ⟨1000, 0, 0⟩).2.1.countP (fun e => decide (e = Ev.retainMatched)) = 1) ∧
    ((ConfigureMode ⟨CmdOption.configureMode, "t", 1440, 900, 0, 0⟩
        ⟨[⟨[⟨1440, 900, 60, true⟩], ⟨2560, 1600, 60, true⟩⟩]⟩
        ⟨1000, 0, 0⟩).2.1.countP (fun e => decide (e = Ev.releaseMatched)) = 0) := by
  constructor <;> decide

/-- C10: both display enumeration operations consult the OS for at most
`kMaxDisplays = 32` displays: listing depends only on the first 32
displays and reports success (no overflow error), and no index at or
beyond 32 is addressable — it fails with the range-check error exactly as
it would if the extra displays did not exist. -/
theorem DisplayList_capped_at_32 (os : OS) (i : Nat) (h32 : kMaxDisplays ≤ i) :
    PrintModesForAllDisplays os =
      PrintModesForAllDisplays ⟨os.displays.take kMaxDisplays⟩ ∧
    (PrintModesForAllDisplays os).1 = 0 ∧
    GetDisplayID i os = Except.error kCGErrorRangeCheck ∧
    ∀ j : Nat, GetDisplayID j os = GetDisplayID j ⟨os.displays.take kMaxDisplays⟩ := by
  have htt : (⟨os.displays.take kMaxDisplays⟩ : OS).displays.take kMaxDisplays
      = os.displays.take kMaxDisplays := by
    show (os.displays.take kMaxDisplays).take kMaxDisplays = _
    rw [List.take_take]
    simp
  refine ⟨?_, rfl, ?_, ?_⟩
  · unfold PrintModesForAllDisplays
    rw [htt]
  · unfold GetDisplayID
    rw [dif_neg (by have := List.length_take_le kMaxDisplays os.displays; omega)]
  · intro j
    unfold GetDisplayID
    rw [htt]

theorem DisplayList_capped_at_32_witness :
    GetDisplayID 32 (⟨[⟨[], ⟨640, 480, 60, true⟩⟩]⟩ : OS) =
      Except.error kCGErrorRangeCheck :=
  (DisplayList_capped_at_32 ⟨[⟨[], ⟨640, 480, 60, true⟩⟩]⟩ 32 (by decide)).2.2.1


theorem ParseArgs_t (a0 : String) (rest : List String) :
    ParseArgs (a0 :: "t" :: rest) =
      ParseMode (a0 :: "t" :: rest) ⟨CmdOption.configureMode, "t", 0, 0, 0, 0⟩ := rfl


/-- C4 counterexample: a negative width token does not yield the
invalid-mode outcome.  `strtoul` converts `"-5"` by unsigned negation
(the digits do convert, so `errno` stays clear) to `2^64 - 5`; the
`0 < width` guard passes, parsing succeeds, and the run proceeds to the
mode scan, failing with the no-match error (exit -1) instead of the
claimed invalid-mode outcome. -/
theorem ParseMode_negative_width_counterexample :
    (ParseArgs ["displaymode", "t", "-5", "900"]).option =
      CmdOption.configureMode ∧
    (ParseArgs ["displaymode", "t", "-5", "900"]).width = 2 ^ 64 - 5 ∧
    mainRun ["displaymode", "t", "-5", "900"]
        ⟨[⟨[⟨2560, 1600, 60, true⟩, ⟨1280, 800, 60, true⟩], ⟨2560, 1600, 60, true⟩⟩]⟩
        ⟨0, 0, 0⟩ =
      (-1, [Ev.listDisplays, Ev.copyAllModes, Ev.releaseArray,
            Ev.msgNoMatch (2 ^ 64 - 5) 900],
       ⟨[⟨[⟨2560, 1600, 60, true⟩, ⟨1280, 800, 60, true⟩], ⟨2560, 1600, 60, true⟩⟩]⟩) :=
  ⟨by decide, by decide, by decide⟩

/-- C4 (amended): for the `t` subcommand, too few tokens, a width or
height token converting to zero (the platform's strtoul sets
`errno = EINVAL` and returns 0 when no conversion is performed, so this
covers every non-numeric token as well as the literal `0`), an `@`
refresh token with no parsable number, and a non-numeric display-index
token (rejected through the same `errno` check) each yield the
invalid-mode outcome: "Invalid mode" on the error stream, process exit 1,
and no OS interaction.  However, a width or height token with a leading
minus sign is not rejected at parse time: strtoul negates it in the
unsigned type to a huge positive value (no `errno`), and the run proceeds
past parsing. -/
theorem ParseMode_failure_outcomes (a0 w h r d : String) (rest : List String)
    (os : OS) (cos : ConfigOS) :
    ((ParseArgs [a0, "t"]).option = CmdOption.invalidMode) ∧
    ((ParseArgs [a0, "t", w]).option = CmdOption.invalidMode) ∧
    ((strtoul10 w).1 = 0 →
      (ParseArgs (a0 :: "t" :: w :: h :: rest)).option = CmdOption.invalidMode) ∧
    ((strtoul10 h).1 = 0 →
      (ParseArgs (a0 :: "t" :: w :: h :: rest)).option = CmdOption.invalidMode) ∧
    (r.toList.getD 0 (Char.ofNat 0) = '@' →
      (strtod10 (String.mk (r.toList.drop 1))).2 = false →
      (ParseArgs [a0, "t", w, h, r]).option = CmdOption.invalidMode) ∧
    (d.toList.getD 0 (Char.ofNat 0) ≠ '@' →
      (strtoul10 d).2 = true →
      (ParseArgs [a0, "t", w, h, d]).option = CmdOption.invalidMode) ∧
    (∀ argv : List String, (ParseArgs argv).option = CmdOption.invalidMode →
      mainRun argv os cos = (1, [Ev.msgInvalidMode], os)) ∧
    (ParseArgs ["displaymode", "t", "1440", "900", "zzz"]).option =
      CmdOption.invalidMode ∧
    (ParseArgs ["displaymode", "t", "-5", "900"]).option = CmdOption.configureMode ∧
    (ParseArgs ["displaymode", "t", "-5", "900"]).width = 2 ^ 64 - 5 := by
  refine ⟨rfl, rfl, ?_, ?_, ?_, ?_, ?_, by decide, by decide, by decide⟩
  · intro hw
    rw [ParseArgs_t]
    unfold ParseMode
    rw [if_neg (by simp only [List.length_cons]; omega),
        show ((a0 :: "t" :: w :: h :: rest).getD 2 "") = w from rfl,
        show ((a0 :: "t" :: w :: h :: rest).getD 3 "") = h from rfl]
    rcases hsw : strtoul10 w with ⟨wv, werr⟩
    obtain rfl : wv = 0 := by rw [hsw] at hw; exact hw
    rcases hsh : strtoul10 h with ⟨hv, herr⟩
    simp
  · intro hh
    rw [ParseArgs_t]
    unfold ParseMode
    rw [if_neg (by simp only [List.length_cons]; omega),
        show ((a0 :: "t" :: w :: h :: rest).getD 2 "") = w from rfl,
        show ((a0 :: "t" :: w :: h :: rest).getD 3 "") = h from rfl]
    rcases hsw : strtoul10 w with ⟨wv, werr⟩
    rcases hsh : strtoul10 h with ⟨hv, herr⟩
    obtain rfl : hv = 0 := by rw [hsh] at hh; exact hh
    simp
  · intro hr0 hrc
    rw [ParseArgs_t]
    unfold ParseMode
    rw [if_neg (by simp only [List.length_cons]; omega),
        show (([a0, "t", w, h, r]).getD 2 "") = w from rfl,
        show (([a0, "t", w, h, r]).getD 3 "") = h from rfl,
        show (([a0, "t", w, h, r]).getD 4 "") = r from rfl,
        show (([a0, "t", w, h, r]).length) = 5 from by simp]
    rcases hsw : strtoul10 w with ⟨wv, werr⟩
    rcases hsh : strtoul10 h with ⟨hv, herr⟩
    rcases hsr : strtod10 (String.mk (r.toList.drop 1)) with ⟨rv, rc⟩
    obtain rfl : rc = false := by rw [hsr] at hrc; exact hrc
    dsimp only
    rw [hr0]
    split_ifs <;> first | rfl | (exfalso; omega) | simp_all
  · intro hd0 hde
    rw [ParseArgs_t]
    unfold ParseMode
    rw [if_neg (by simp only [List.length_cons]; omega),
        show (([a0, "t", w, h, d]).getD 2 "") = w from rfl,
        show (([a0, "t", w, h, d]).getD 3 "") = h from rfl,
        show (([a0, "t", w, h, d]).getD 4 "") = d from rfl,
        show (([a0, "t", w, h, d]).length) = 5 from by simp]
    rcases hsw : strtoul10 w with ⟨wv, werr⟩
    rcases hsh : strtoul10 h with ⟨hv, herr⟩
    have hcond : ¬((decide (4 < 5) &&
        decide (d.toList.getD 0 (Char.ofNat 0) = '@')) = true) := by
      have hd0x : ¬d.data[0]?.getD (Char.ofNat 0) = '@' := by simpa using hd0
      simp [hd0x]
    dsimp only
    rw [if_neg hcond, if_neg hcond,
        show (([a0, "t", w, h, d]).getD 4 "") = d from rfl]
    rcases hsd : strtoul10 d with ⟨dv, derr⟩
    obtain rfl : derr = true := by rw [hsd] at hde; exact hde
    split_ifs <;> first | rfl | (exfalso; omega) | simp_all
  · intro argv hopt
    simp only [mainRun, hopt]

theorem ParseMode_failure_outcomes_witness :
    (ParseArgs ["displaymode", "t", "abc", "900"]).option = CmdOption.invalidMode ∧
    (ParseArgs ["displaymode", "t", "1440", "0"]).option = CmdOption.invalidMode ∧
    (ParseArgs ["displaymode", "t", "1440", "900", "@x"]).option =
      CmdOption.invalidMode ∧
    (ParseArgs ["displaymode", "t", "1440", "900", "zzz"]).option =
      CmdOption.invalidMode ∧
    mainRun ["displaymode", "t", "abc", "900"] ⟨[]⟩ ⟨0, 0, 0⟩ =
      (1, [Ev.msgInvalidMode], ⟨[]⟩) := by
  have h1 := ParseMode_failure_outcomes "displaymode" "abc" "900" "@x" "zzz" [] ⟨[]⟩ ⟨0, 0, 0⟩
  have h2 := ParseMode_failure_outcomes "displaymode" "1440" "0" "@x" "zzz" [] ⟨[]⟩ ⟨0, 0, 0⟩
  have h3 := ParseMode_failure_outcomes "displaymode" "1440" "900" "@x" "zzz" [] ⟨[]⟩ ⟨0, 0, 0⟩
  exact ⟨h1.2.2.1 (by decide), h2.2.2.2.1 (by decide),
    h3.2.2.2.2.1 (by decide) (by decide),
    h3.2.2.2.2.2.1 (by decide) (by decide),
    h1.2.2.2.2.2.2.1 ["displaymode", "t", "abc", "900"] (h1.2.2.1 (by decide))⟩
